import Mathlib

/-!
# Verification of the TikTok comments crawler core

Shallow embedding of the crawler repository (backend_api/main.py and
TikTok_CMT/crawlers), with theorems settling the frozen claims about the
fetch retry core, the token cache, the batched reply fetcher and the job
state machine.
-/

/-! ## Fetch core (TikTok_CMT/crawlers/base_crawler.py)

`BaseCrawler.get_fetch_data` / `post_fetch_data` loop
`for attempt in range(self._max_retries)`, issue one request per attempt and
classify the outcome.  The transport either raises a connection-level error
(httpx.RequestError) or yields a response with a status code and a body; an
empty (blank) body on the last attempt raises RetryExhausted inside the try
block, an empty body on an earlier attempt sleeps the configured timeout and
retries, a non-empty 2xx response is returned, and any other status is routed
through `handle_http_status_error`. -/

/-- One attempt's transport-level outcome: either the transport raises a
connection-level error, or it delivers a response with a status code and a
body text. -/
inductive AttemptOutcome
  | requestError
  | response (status : Nat) (body : String)
deriving DecidableEq, Repr

/-- Modelled from the spec: the error taxonomy of section 7 of the spec.
The module crawlers/utils/api_exceptions.py is not under src (only its
importers are).  Per the import list of base_crawler.py all the specific
errors live in that one module; the spec's taxonomy presents them as one
family of error signals, which is what BaseCrawler's final blanket
"except APIError" clause relies on. -/
inductive APIErrorKind
  | connectionError
  | responseError
  | timeoutError
  | unavailable
  | unauthorized
  | notFound
  | rateLimit
  | retryExhausted
deriving DecidableEq, Repr

/-- Modelled from the spec: what one fetch call delivers to its caller.
Because api_exceptions.py is missing from src, the base-class method
display_error is modelled from the spec's side-effect clause (section 4.1
lists only logging as a side effect of retry handling): display_error
renders the error message and does not re-raise.  Consequently an APIError
raised inside the loop's try block (the RetryExhausted raise of the final
empty-body attempt) is caught by the final "except APIError" clause,
displayed, and swallowed, after which the for loop is exhausted and the
Python function returns None: the `noResponse` result.  Errors raised inside
an except clause (connection errors and classified HTTP status errors)
propagate out of the whole loop: the `err` result. -/
inductive FetchResult
  | ok (status : Nat) (body : String)
  | err (e : APIErrorKind)
  | noResponse
deriving DecidableEq, Repr

/-- A body counts as empty when `not response.text.strip()` holds, i.e. its
whitespace-trimmed text is empty — equivalently, every character of the body
is whitespace (the conjoined `not response.content` check is subsumed: an
empty byte content has empty text). -/
def blankBody (body : String) : Bool := body.data.all (fun c => c.isWhitespace)

/-- `BaseCrawler.handle_http_status_error`: deterministic classification of a
non-2xx status.  `none` is the 302 pass-through branch (no error raised, the
loop continues); every other status raises the corresponding APIError. -/
def handle_http_status_error (status : Nat) : Option APIErrorKind :=
  if status = 302 then none
  else if status = 404 then some .notFound
  else if status = 503 then some .unavailable
  else if status = 408 then some .timeoutError
  else if status = 401 then some .unauthorized
  else if status = 429 then some .rateLimit
  else some .responseError

/-- The outcome of one whole fetch call: the result delivered to the caller,
the number of attempts that were issued, and the number of backoff sleeps
(each of the configured timeout duration) that were performed. -/
structure FetchTrace where
  result : FetchResult
  attempts : Nat
  sleeps : Nat
deriving DecidableEq, Repr

/-- The retry loop shared verbatim by `get_fetch_data` and `post_fetch_data`.
`i` is the current attempt index, `sleeps` the backoff sleeps performed so
far, and the final argument the remaining loop iterations
(`maxRetries - i`). -/
def fetchLoopAux (oracle : Nat → AttemptOutcome) (maxRetries : Nat) :
    Nat → Nat → Nat → FetchTrace
  | i, sleeps, 0 => ⟨.noResponse, i, sleeps⟩
  | i, sleeps, remaining + 1 =>
    match oracle i with
    | .requestError => ⟨.err .connectionError, i + 1, sleeps⟩
    | .response status body =>
      if blankBody body then
        if i = maxRetries - 1 then ⟨.noResponse, i + 1, sleeps⟩
        else fetchLoopAux oracle maxRetries (i + 1) (sleeps + 1) remaining
      else if 200 ≤ status ∧ status < 300 then ⟨.ok status body, i + 1, sleeps⟩
      else
        match handle_http_status_error status with
        | none => fetchLoopAux oracle maxRetries (i + 1) sleeps remaining
        | some e => ⟨.err e, i + 1, sleeps⟩

/-- `BaseCrawler.get_fetch_data`: run the retry loop from attempt 0. -/
def get_fetch_data (oracle : Nat → AttemptOutcome) (maxRetries : Nat) :
    FetchTrace :=
  fetchLoopAux oracle maxRetries 0 0 maxRetries

/-- `BaseCrawler.post_fetch_data`: its loop body is textually identical to
the one of get_fetch_data (only the one awaited client call differs). -/
def post_fetch_data (oracle : Nat → AttemptOutcome) (maxRetries : Nat) :
    FetchTrace :=
  fetchLoopAux oracle maxRetries 0 0 maxRetries

/-! ## Token cache (TikTok_CMT/crawlers/tiktok/web/utils.py, TokenManager)

TokenManager keeps `self.tokens`, a dict populated lazily by `get_token`.
The three token methods each perform one bare httpx network call; a
transport failure there propagates as an exception, and an absent value in
the response yields the method's lookup default (the empty string for
msToken's JSON chain, None for the ttwid/odin_tt cookie lookups).  Token
values are therefore `Option String` (None models Python None), and each
network interaction is `Except Unit (Option String)`: `.error` models the
httpx exception propagating, `.ok v` a response in which the looked-up
value is `v`. -/

/-- `TokenManager.get_ms_token`: POST to the login_info API and return
`response.json().get("data", {}).get("msToken", "")`.  There is no
try/except: a network failure propagates, an absent value becomes "". -/
def get_ms_token (resp : Except Unit (Option String)) : Except Unit String :=
  resp.map (fun v => v.getD "")

/-- `TokenManager.get_ttwid`: HEAD the web URL and return
`response.cookies.get("ttwid")` — the raw optional cookie value; a network
failure propagates. -/
def get_ttwid (resp : Except Unit (Option String)) : Except Unit (Option String) :=
  resp

/-- `TokenManager.get_odin_tt`: GET the qrcode API and return
`response.cookies.get("odin_tt")`; a network failure propagates. -/
def get_odin_tt (resp : Except Unit (Option String)) : Except Unit (Option String) :=
  resp

/-- The network environment seen by one TokenManager instance: the outcome
each token method's single network interaction would deliver. -/
structure TokenNetEnv where
  msResp : Except Unit (Option String)
  ttwidResp : Except Unit (Option String)
  odinResp : Except Unit (Option String)

/-- The `token_method_map` dispatch of `get_token`, composed with the three
methods: the value stored for a recognized token name (msToken's string
result is wrapped back into the common optional-value type). -/
def tokenMethod (net : TokenNetEnv) (name : String) : Except Unit (Option String) :=
  if name = "msToken" then (get_ms_token net.msResp).map some
  else if name = "ttwid" then get_ttwid net.ttwidResp
  else get_odin_tt net.odinResp

/-- The mutable state of one TokenManager instance: the `self.tokens` dict
(as an association list in insertion order) plus an instrumentation counter
of network acquisitions performed. -/
structure TokenState where
  tokens : List (String × Option String)
  netCalls : Nat
deriving DecidableEq, Repr

/-- Dict lookup in `self.tokens`. -/
def lookupToken (l : List (String × Option String)) (name : String) :
    Option (Option String) :=
  match l with
  | [] => none
  | (k, v) :: rest => if k = name then some v else lookupToken rest name

/-- What one `get_token` call delivers: the token value (possibly Python
None), a ValueError for an unrecognized name, or a propagated network
exception. -/
inductive TokenResult
  | ok (v : Option String)
  | invalidName
  | raise
deriving DecidableEq, Repr

/-- `TokenManager.get_token`: if the name is not cached, dispatch to the
method for the name (ValueError when unrecognized), store the result and
return `self.tokens.get(token_name, "")` — the freshly stored value; if it
is cached, return the cached value with no network interaction. -/
def get_token (net : TokenNetEnv) (name : String) (s : TokenState) :
    TokenResult × TokenState :=
  match lookupToken s.tokens name with
  | some v => (.ok v, s)
  | none =>
    if name = "msToken" ∨ name = "ttwid" ∨ name = "odin_tt" then
      match tokenMethod net name with
      | .error _ => (.raise, { s with netCalls := s.netCalls + 1 })
      | .ok v => (.ok v, ⟨s.tokens ++ [(name, v)], s.netCalls + 1⟩)
    else (.invalidName, s)

/-! ## Job state machine and crawl driver (backend_api/main.py)

The task record lives in the process-local `tasks` dict; the background
coroutine `crawl_video_comments` is its single writer, except that the
`/crawl/cancel` endpoint may run at any of the background task's await
suspension points and flip a pending/running status to cancelled.  The model
threads a system state holding the current task record, the full sequence
of task-record snapshots after every write (the trace), a suspension-point
counter, and a log of the page requests issued.  A cancellation schedule
`sched : Nat → Bool` says at which suspension points a cancel request for
this task arrives.  Unmodelled task fields (message and the two timestamps)
are written only alongside the modelled ones; time-derived values (the
duration stat, the timestamped download filename) are abstracted. -/

/-- The task lifecycle status strings of main.py. -/
inductive Status
  | pending
  | running
  | completed
  | failed
  | cancelled
deriving DecidableEq, Repr

/-- The modelled fields of one entry of the `tasks` dict. -/
structure Job where
  status : Status
  progress : ℚ
  statsComments : Nat
  statsReplies : Nat
  downloadUrl : Option String
  error : Option String
deriving DecidableEq, Repr

/-- The task record `start_crawl` registers: status pending, progress 0,
zero stats, no download URL, no error. -/
def initialTask : Job :=
  { status := .pending, progress := 0, statsComments := 0, statsReplies := 0,
    downloadUrl := none, error := none }

/-- The `/crawl/cancel` endpoint's per-task action: only a pending or
running task is marked cancelled; a terminal task is left untouched. -/
def cancel_crawl (t : Job) : Job :=
  if t.status = .pending ∨ t.status = .running then { t with status := .cancelled }
  else t

/-- A fetched comment (or reply): its `cid` field as stored (absent key
modelled as none) and its remaining payload collapsed into one field. -/
structure Comment where
  cid : Option String
  text : String
deriving DecidableEq, Repr

/-- One page response as consumed by the pagination loops:
`response.get("comments", [])`, `response.get("has_more", False)` and
`response.get("cursor", 0)`. -/
structure Page where
  comments : List Comment
  hasMore : Bool
  cursor : Nat
deriving DecidableEq, Repr

/-- The remote API as seen by one crawl: the page delivered for each
comment-page cursor and for each (comment id, reply-page cursor).  `none`
models a per-page failure — the fetch raising, or the crawler returning
None so that the subsequent attribute access raises — which the loops catch
and turn into a break. -/
structure CrawlEnv where
  commentPage : Nat → Option Page
  replyPage : String → Nat → Option Page
deriving Inhabited

/-- A page request issued to the remote API. -/
inductive FetchEvent
  | commentPage (cursor : Nat)
  | replyPage (cid : String) (cursor : Nat)
deriving DecidableEq, Repr

/-- The system state threaded through the background execution: the current
task record, the sequence of task-record snapshots after each write, the
suspension-point counter, and the log of issued page requests. -/
structure Sys where
  task : Job
  trace : List Job
  tick : Nat
  fetchLog : List FetchEvent
deriving DecidableEq, Repr

/-- The state right after `start_crawl` registered the task. -/
def initSys : Sys :=
  { task := initialTask, trace := [initialTask], tick := 0, fetchLog := [] }

/-- One atomic group of writes to the task record (no await between them):
apply the update and record the snapshot. -/
def writeTask (f : Job → Job) (s : Sys) : Sys :=
  { s with task := f s.task, trace := s.trace ++ [f s.task] }

/-- One await suspension point: if the schedule delivers a cancel request
here and the task is still pending or running, the cancel endpoint marks it
cancelled; the suspension counter advances either way. -/
def suspendPoint (sched : Nat → Bool) (s : Sys) : Sys :=
  let s1 :=
    if sched s.tick ∧ (s.task.status = .pending ∨ s.task.status = .running) then
      writeTask cancel_crawl s
    else s
  { s1 with tick := s.tick + 1 }

/-- Record a page request being issued. -/
def logFetch (e : FetchEvent) (s : Sys) : Sys :=
  { s with fetchLog := s.fetchLog ++ [e] }

/-- The `while has_more and tasks[task_id]["status"] == "running"` loop of
`fetch_comments_with_progress`: issue the page request (an await, hence a
suspension point), on failure break with the comments accumulated so far,
on success append the page's comments, write progress
`min(10 + page * 2, 50)` and the comment stat, sleep 0.3 s (a suspension
point) and continue.  The first argument of the recursion is fuel bounding
the executed iterations. -/
def fetchCommentsLoop (env : CrawlEnv) (sched : Nat → Bool) :
    Nat → Bool → Nat → Nat → List Comment → Sys → List Comment × Sys
  | 0, _, _, _, acc, s => (acc, s)
  | fuel + 1, hasMore, cursor, page, acc, s =>
    if hasMore ∧ s.task.status = .running then
      let s1 := suspendPoint sched (logFetch (.commentPage cursor) s)
      match env.commentPage cursor with
      | none => (acc, s1)
      | some p =>
        let acc1 := acc ++ p.comments
        let s2 := writeTask (fun t =>
          { t with progress := min (10 + (page + 1 : ℚ) * 2) 50,
                   statsComments := acc1.length }) s1
        let s3 := suspendPoint sched s2
        fetchCommentsLoop env sched fuel p.hasMore p.cursor (page + 1) acc1 s3
    else (acc, s)

/-- `fetch_comments_with_progress`: run the comment pagination loop from
cursor 0 with an empty accumulator. -/
def fetch_comments_with_progress (env : CrawlEnv) (sched : Nat → Bool)
    (fuel : Nat) (s : Sys) : List Comment × Sys :=
  fetchCommentsLoop env sched fuel true 0 0 [] s


/-- The `while has_more` loop of `fetch_comment_replies`, for one parent
comment: issue the reply-page request (a suspension point), on any failure
break with the replies accumulated so far, on success append the page's
replies, sleep 0.2 s (a suspension point) and continue.  It writes nothing
to the task record and never checks the cancellation flag, and every
exception is caught inside the loop, so the coroutine always returns a
list. -/
def fetchRepliesInner (env : CrawlEnv) (sched : Nat → Bool) (cid : String) :
    Nat → Bool → Nat → List Comment → Sys → List Comment × Sys
  | 0, _, _, acc, s => (acc, s)
  | fuel + 1, hasMore, cursor, acc, s =>
    if hasMore then
      let s1 := suspendPoint sched (logFetch (.replyPage cid cursor) s)
      match env.replyPage cid cursor with
      | none => (acc, s1)
      | some p =>
        let s2 := suspendPoint sched s1
        fetchRepliesInner env sched cid fuel p.hasMore p.cursor (acc ++ p.comments) s2
    else (acc, s)

/-- `fetch_comment_replies`: run the reply pagination loop for one comment
from cursor 0. -/
def fetch_comment_replies (env : CrawlEnv) (sched : Nat → Bool) (fuel : Nat)
    (cid : String) (s : Sys) : List Comment × Sys :=
  fetchRepliesInner env sched cid fuel true 0 [] s

/-- `asyncio.gather` over one batch's reply coroutines, linearized: the
cooperative scheduler interleaves the siblings, and since none of them
writes to the task record their effects on the system state commute; the
results keep the batch order, as gather guarantees. -/
def runBatch (env : CrawlEnv) (sched : Nat → Bool) (fuel : Nat) :
    List String → Sys → List (List Comment) × Sys
  | [], s => ([], s)
  | cid :: rest, s =>
    let (r, s1) := fetch_comment_replies env sched fuel cid s
    let (rs, s2) := runBatch env sched fuel rest s1
    (r :: rs, s2)

/-- Dict assignment `reply_counts[comment_id] = len(replies)`: replace the
entry if the key is present, else append it. -/
def setCount (m : List (String × Nat)) (k : String) (v : Nat) :
    List (String × Nat) :=
  match m with
  | [] => [(k, v)]
  | (k1, v1) :: rest => if k1 = k then (k, v) :: rest else (k1, v1) :: setCount rest k v

/-- `sum(reply_counts.values())`. -/
def sumCounts (m : List (String × Nat)) : Nat :=
  (m.map Prod.snd).sum

/-- The fixed batch size of fetch_replies_with_progress. -/
def batchSize : Nat := 8

/-- The batch loop of `fetch_replies_with_progress` over the remaining
valid comments: break when the task is no longer running; otherwise gather
the next batch's reply fetches (every result is a list, so the
isinstance-Exception guard records a count for every batch member), write
progress `50 + processed / total * 35` and the reply stat, sleep 0.5 s
between batches (a suspension point, only when comments remain), and
continue.  `total` is `len(valid_comments)`; the first fuel bounds the
inner pagination loops, the second the number of batches. -/
def fetchRepliesBatches (env : CrawlEnv) (sched : Nat → Bool) (fuel : Nat)
    (total : Nat) :
    Nat → List String → Nat → List (String × Nat) → Sys →
      List (String × Nat) × Sys
  | 0, _, _, counts, s => (counts, s)
  | _ + 1, [], _, counts, s => (counts, s)
  | bfuel + 1, cid :: rest0, processed, counts, s =>
    if s.task.status = .running then
      let remaining := cid :: rest0
      let batch := remaining.take batchSize
      let rest := remaining.drop batchSize
      let (results, s1) := runBatch env sched fuel batch s
      let counts1 := (batch.zip results).foldl
        (fun m p => setCount m p.1 p.2.length) counts
      let processed1 := processed + batch.length
      let s2 := writeTask (fun t =>
        { t with progress := 50 + ((processed1 : ℚ) / (total : ℚ)) * 35,
                 statsReplies := sumCounts counts1 }) s1
      let s3 := if rest.isEmpty then s2 else suspendPoint sched s2
      fetchRepliesBatches env sched fuel total bfuel rest processed1 counts1 s3
    else (counts, s)

/-- The `c.get("cid")` truthiness filter of
`valid_comments = [c for c in comments if c.get("cid")]`: an absent cid or
the empty string is falsy. -/
def truthyCid (c : Comment) : Option String :=
  match c.cid with
  | none => none
  | some t => if t = "" then none else some t

/-- `fetch_replies_with_progress`: filter the comments with a truthy cid,
return the empty mapping when none remain, otherwise run the batch loop. -/
def fetch_replies_with_progress (env : CrawlEnv) (sched : Nat → Bool)
    (fuel : Nat) (comments : List Comment) (s : Sys) :
    List (String × Nat) × Sys :=
  let valid := comments.filterMap truthyCid
  if valid.isEmpty then ([], s)
  else fetchRepliesBatches env sched fuel valid.length fuel valid 0 [] s

/-- One entry of the result artifact's comment list (author fields, like
count and timestamp are copied verbatim from the raw comment and are
collapsed into the text payload here). -/
structure FormattedComment where
  comment_id : String
  post_id : String
  comment_text : String
  reply_comment_total : Nat
deriving DecidableEq, Repr

/-- `reply_counts.get(comment.get("cid"), 0)`. -/
def lookupCount (m : List (String × Nat)) (cid : Option String) : Nat :=
  match cid with
  | none => 0
  | some t =>
    match m with
    | [] => 0
    | (k, v) :: rest => if k = t then v else lookupCount rest (some t)

/-- The result artifact built by `format_crawled_data`: the formatted
comment list plus the metadata counts. -/
structure Artifact where
  comments : List FormattedComment
  video_id : String
  total_comments : Nat
  total_replies : Nat
deriving DecidableEq, Repr

/-- `format_crawled_data`: map every fetched comment to its normalized
record (missing cid becomes "", the reply count defaults to 0) and attach
the metadata. -/
def format_crawled_data (comments : List Comment) (videoId : String)
    (replyCounts : List (String × Nat)) : Artifact :=
  let formatted := comments.map (fun c =>
    { comment_id := c.cid.getD "", post_id := videoId, comment_text := c.text,
      reply_comment_total := lookupCount replyCounts c.cid : FormattedComment })
  { comments := formatted, video_id := videoId,
    total_comments := formatted.length, total_replies := sumCounts replyCounts }

/-- The `CrawlRequest` submission model of main.py. -/
structure CrawlRequest where
  video_id : String
  video_url : Option String
  max_comments : Nat
  include_replies : Bool
deriving DecidableEq, Repr

/-- The background coroutine `crawl_video_comments` on its happy path (the
except-branch that marks the task failed is reachable only through I/O
faults outside this model): a suspension point before the body runs (the
background task starts only after the submission response, so a cancel can
arrive first), then the atomic writes and the two fetch phases exactly as
in main.py, ending with the unconditional completion write that sets
status completed and progress 100.  The download filename is abstracted to
the video id (the real one also embeds a timestamp). -/
def crawl_video_comments (env : CrawlEnv) (sched : Nat → Bool) (fuel : Nat)
    (req : CrawlRequest) (s : Sys) : Artifact × Sys :=
  let s0 := suspendPoint sched s
  let s1 := writeTask (fun t => { t with status := .running, progress := 10 }) s0
  let (comments, s2) := fetch_comments_with_progress env sched fuel s1
  let s3 := writeTask (fun t =>
    { t with progress := 50, statsComments := comments.length }) s2
  let (replyCounts, s4) :=
    if req.include_replies then
      let sa := writeTask (fun t => { t with progress := 60 }) s3
      let (rc, sb) := fetch_replies_with_progress env sched fuel comments sa
      (rc, writeTask (fun t =>
        { t with statsReplies := sumCounts rc, progress := 90 }) sb)
    else ([], writeTask (fun t => { t with progress := 90 }) s3)
  let artifact := format_crawled_data comments req.video_id replyCounts
  let s5 := writeTask (fun t =>
    { t with status := .completed, progress := 100,
             downloadUrl := some req.video_id }) s4
  (artifact, s5)

/-! ## Predicates and concrete fixtures used by the theorems -/

/-- An attempt whose response body is empty/blank (the retryable failure of
the empty-body kind; a raised transport error is not of this kind). -/
def blankAttempt (a : AttemptOutcome) : Bool :=
  match a with
  | .requestError => false
  | .response _ body => blankBody body

/-- The progress/status consistency a job record can satisfy: progress is
100 exactly when the status is completed. -/
def JobOk (t : Job) : Prop := t.progress = 100 ↔ t.status = .completed

instance (t : Job) : Decidable (JobOk t) :=
  inferInstanceAs (Decidable (t.progress = 100 ↔ t.status = .completed))

/-- Invariant of a system state in mid-execution: every recorded snapshot
is progress/status consistent, and the current record has not completed
(its progress is below 100 and its status is not completed). -/
def SysOk (s : Sys) : Prop :=
  (∀ t ∈ s.trace, JobOk t) ∧ s.task.progress < 100 ∧ s.task.status ≠ .completed

instance (s : Sys) : Decidable (SysOk s) :=
  inferInstanceAs (Decidable ((∀ t ∈ s.trace, JobOk t) ∧
    s.task.progress < 100 ∧ s.task.status ≠ .completed))

/-- Pointwise order on recorded snapshots: progress does not decrease. -/
def progressLE (a b : Job) : Prop := a.progress ≤ b.progress

instance : DecidableRel progressLE := fun a b =>
  inferInstanceAs (Decidable (a.progress ≤ b.progress))

/-- Boolean check that consecutive snapshots have non-decreasing
progress. -/
def progressMonoBool : List Job → Bool
  | [] => true
  | [_] => true
  | a :: b :: rest => (decide (a.progress ≤ b.progress)) && progressMonoBool (b :: rest)

/-- The recorded snapshots of a system state have non-decreasing
progress. -/
def ProgMono (s : Sys) : Prop := progressMonoBool s.trace = true

instance (s : Sys) : Decidable (ProgMono s) :=
  inferInstanceAs (Decidable (progressMonoBool s.trace = true))

/-- The last element of a snapshot sequence. -/
def lastSnap : List Job → Option Job
  | [] => none
  | [a] => some a
  | _ :: b :: rest => lastSnap (b :: rest)

/-- The last recorded snapshot is the current job record (holds for every
state built from initSys by the model's operations). -/
def LastJob (s : Sys) : Prop := lastSnap s.trace = some s.task

instance (s : Sys) : Decidable (LastJob s) :=
  inferInstanceAs (Decidable (lastSnap s.trace = some s.task))

/-- A system state whose snapshots are non-decreasing in progress and end
at the current record. -/
def MonoLast (s : Sys) : Prop := ProgMono s ∧ LastJob s

/-- Fixture: a one-comment first page that advertises more pages, so that a
cancellation arriving during the after-page sleep is observed at the next
loop boundary. -/
def envC1 : CrawlEnv :=
  { commentPage := fun c => if c = 0 then some ⟨[⟨some "a", "hi"⟩], true, 1⟩ else none,
    replyPage := fun _ _ => none }

/-- Fixture: a crawl request without replies. -/
def reqC1 : CrawlRequest := ⟨"v1", none, 1000, false⟩

/-- Fixture: 29 comments with distinct truthy cids, enough that the first
reply batch covers less than two sevenths of them. -/
def commentsC3 : List Comment :=
  (List.range 29).map fun i => ⟨some ("c" ++ toString i), ""⟩

/-- Fixture: one comment page carrying the 29 comments, and empty reply
pages for every comment. -/
def envC3 : CrawlEnv :=
  { commentPage := fun c => if c = 0 then some ⟨commentsC3, false, 0⟩ else none,
    replyPage := fun _ _ => some ⟨[], false, 0⟩ }

/-- Fixture: a crawl request with replies. -/
def reqC3 : CrawlRequest := ⟨"v", none, 1000, true⟩

/-- Fixture: the ten parent comment ids of the batched-fetch scenario. -/
def cidsC6 : List String :=
  ["c0", "c1", "c2", "c3", "c4", "c5", "c6", "c7", "c8", "c9"]

/-- Fixture: the ten parent comments of the batched-fetch scenario. -/
def commentsC6 : List Comment := cidsC6.map fun c => ⟨some c, ""⟩

/-- Fixture: the reply environment of the batched-fetch scenario — the
items c2 and c5 (both in the first batch of eight) fail on their first
reply page, every other item delivers its `f cid` replies in one page. -/
def envC6 (f : String → Nat) : CrawlEnv :=
  { commentPage := fun _ => none,
    replyPage := fun cid cursor =>
      if cid = "c2" ∨ cid = "c5" then none
      else if cursor = 0 then some ⟨List.replicate (f cid) ⟨some "r", "x"⟩, false, 0⟩
      else none }

/-- Fixture: a mid-crawl system state whose job is running (as it is when
fetch_replies_with_progress is entered). -/
def sC6 : Sys :=
  { task := { status := .running, progress := 60, statsComments := 10,
              statsReplies := 0, downloadUrl := none, error := none },
    trace := [], tick := 0, fetchLog := [] }


/-! ## Theorems: fetch core (claims C2, C4, C5) -/

/-- Helper: when every attempt up to the retry budget yields a blank body,
the loop sleeps once per non-final attempt and falls through, delivering
the swallowed-RetryExhausted null result after exactly the budgeted number
of attempts. -/
theorem fetchLoopAux_all_blank (oracle : Nat → AttemptOutcome) (R : Nat)
    (hb : ∀ j, j < R → blankAttempt (oracle j) = true) :
    ∀ rem i sleeps, i + rem = R → 0 < rem →
      fetchLoopAux oracle R i sleeps rem = ⟨.noResponse, R, sleeps + (rem - 1)⟩ := by
  intro rem
  induction rem with
  | zero => omega
  | succ n ih =>
    intro i sleeps hiR _
    have hbi := hb i (by omega)
    rcases hoi : oracle i with _ | ⟨st, b⟩
    · rw [hoi] at hbi; simp [blankAttempt] at hbi
    · rw [hoi] at hbi
      have hblank : blankBody b = true := hbi
      rcases n with _ | m
      · have hi : i = R - 1 := by omega
        have ha : i + 1 = R := by omega
        rw [fetchLoopAux, hoi]
        simp [hblank, hi, ha]
        all_goals omega
      · have hi : ¬ i = R - 1 := by omega
        have hrec := ih (i + 1) (sleeps + 1) (by omega) (by omega)
        have hstep : fetchLoopAux oracle R i sleeps (m + 1 + 1) =
            fetchLoopAux oracle R (i + 1) (sleeps + 1) (m + 1) := by
          rw [fetchLoopAux, hoi]
          simp [hblank, hi]
        rw [hstep, hrec]
        simp only [FetchTrace.mk.injEq]
        refine ⟨by trivial, by trivial, by omega⟩

/-- Helper: a connection-level transport error at attempt k, after blank
bodies on the earlier attempts, terminates the loop at attempt k with the
connection error. -/
theorem fetchLoopAux_conn (oracle : Nat → AttemptOutcome) (R k : Nat)
    (hk : k < R) (hok : oracle k = .requestError) :
    ∀ rem i sleeps, i + rem = R → i ≤ k →
      (∀ j, i ≤ j → j < k → blankAttempt (oracle j) = true) →
      fetchLoopAux oracle R i sleeps rem =
        ⟨.err .connectionError, k + 1, sleeps + (k - i)⟩ := by
  intro rem
  induction rem with
  | zero => omega
  | succ n ih =>
    intro i sleeps hiR hik hb
    rcases Nat.eq_or_lt_of_le hik with heq | hlt
    · subst heq
      rw [fetchLoopAux, hok]
      simp
    · have hbi := hb i le_rfl hlt
      rcases hoi : oracle i with _ | ⟨st, b⟩
      · rw [hoi] at hbi; simp [blankAttempt] at hbi
      · rw [hoi] at hbi
        have hblank : blankBody b = true := hbi
        have hi : ¬ i = R - 1 := by omega
        have hrec := ih (i + 1) (sleeps + 1) (by omega) (by omega)
          (fun j hj1 hj2 => hb j (by omega) hj2)
        have hstep : fetchLoopAux oracle R i sleeps (n + 1) =
            fetchLoopAux oracle R (i + 1) (sleeps + 1) n := by
          rw [fetchLoopAux, hoi]
          simp [hblank, hi]
        rw [hstep, hrec]
        simp only [FetchTrace.mk.injEq]
        refine ⟨by trivial, by trivial, by omega⟩

/-- C2: the claim states that connection-level transport errors retry
across attempts like empty bodies do, signalling ConnectionError only after
all max_retries attempts.  The code instead raises APIConnectionError from
inside the except clause, which propagates at once: with max_retries = 3
and a transport that always errors, the call signals ConnectionError after
exactly one attempt, not three. -/
theorem conn_error_no_retry_counterexample :
    get_fetch_data (fun _ => .requestError) 3 = ⟨.err .connectionError, 1, 0⟩ ∧
    (get_fetch_data (fun _ => .requestError) 3).attempts ≠ 3 ∧
    post_fetch_data (fun _ => .requestError) 3 = ⟨.err .connectionError, 1, 0⟩ := by
  decide

/-- C2 (amended): a connection-level transport error aborts the fetch call
immediately — if the attempts before k yield blank bodies and attempt k
raises a transport error, both get_fetch_data and post_fetch_data signal
ConnectionError at attempt k + 1 with no further attempts, for any retry
budget larger than k. -/
theorem conn_error_aborts_immediately (oracle : Nat → AttemptOutcome)
    (R k : Nat) (hk : k < R)
    (hb : ∀ j, j < k → blankAttempt (oracle j) = true)
    (hok : oracle k = .requestError) :
    get_fetch_data oracle R = ⟨.err .connectionError, k + 1, k⟩ ∧
    post_fetch_data oracle R = ⟨.err .connectionError, k + 1, k⟩ := by
  have h := fetchLoopAux_conn oracle R k hk hok R 0 0 (by omega) (by omega)
    (fun j _ hj => hb j hj)
  have hg : get_fetch_data oracle R = ⟨.err .connectionError, k + 1, 0 + (k - 0)⟩ := h
  have hp : post_fetch_data oracle R = ⟨.err .connectionError, k + 1, 0 + (k - 0)⟩ := h
  rw [hg, hp]
  simp

/-- Witness for C2 (amended): with a transport erroring from the first
attempt and max_retries = 3, the call returns the connection error after
one attempt. -/
theorem conn_error_aborts_immediately_witness :
    get_fetch_data (fun _ => .requestError) 3 = ⟨.err .connectionError, 1, 0⟩ ∧
    post_fetch_data (fun _ => .requestError) 3 = ⟨.err .connectionError, 1, 0⟩ :=
  conn_error_aborts_immediately (fun _ => .requestError) 3 0
    (by decide) (fun j hj => absurd hj (Nat.not_lt_zero j)) rfl

/-- C4: the claim states that with every body empty the call makes exactly
R attempts, waits after each non-final attempt, and signals RetryExhausted
on attempt R.  The attempt and wait counts are right, but the
APIRetryExhaustedError raised on the final attempt is caught by the
method's own blanket APIError handler and swallowed, so the caller receives
a null result, not the RetryExhausted signal: at max_retries = 3 the call
returns None after 3 attempts and 2 backoff waits. -/
theorem retry_exhausted_signal_counterexample :
    get_fetch_data (fun _ => .response 200 "") 3 = ⟨.noResponse, 3, 2⟩ ∧
    (get_fetch_data (fun _ => .response 200 "") 3).result ≠ .err .retryExhausted := by
  decide

/-- C4 (amended): a call whose response body is empty on every attempt
makes exactly R attempts, waits the configured backoff after each of the
first R - 1 attempts and not after attempt R, and returns a null result to
the caller (the RetryExhausted error raised on attempt R is swallowed by
the loop's APIError handler). -/
theorem empty_body_retry_returns_none (oracle : Nat → AttemptOutcome)
    (R : Nat) (hR : 0 < R)
    (hb : ∀ j, j < R → blankAttempt (oracle j) = true) :
    get_fetch_data oracle R = ⟨.noResponse, R, R - 1⟩ ∧
    post_fetch_data oracle R = ⟨.noResponse, R, R - 1⟩ := by
  have h := fetchLoopAux_all_blank oracle R hb R 0 0 (by omega) hR
  have hg : get_fetch_data oracle R = ⟨.noResponse, R, 0 + (R - 1)⟩ := h
  have hp : post_fetch_data oracle R = ⟨.noResponse, R, 0 + (R - 1)⟩ := h
  rw [hg, hp]
  simp

/-- Witness for C4 (amended): at max_retries = 3 with every body empty the
call makes 3 attempts, 2 waits, and returns the null result. -/
theorem empty_body_retry_returns_none_witness :
    get_fetch_data (fun _ => .response 200 "") 3 = ⟨.noResponse, 3, 2⟩ ∧
    post_fetch_data (fun _ => .response 200 "") 3 = ⟨.noResponse, 3, 2⟩ :=
  empty_body_retry_returns_none (fun _ => .response 200 "") 3
    (by decide) (fun j _ => rfl)

/-- C5: the claim states that every fetch call whose attempts all fail
terminates by signalling a distinct taxonomy error and never by returning a
null value.  With max_retries = 2 and a whitespace-only body on both
attempts, every attempt fails, yet the call returns the null result rather
than any error signal. -/
theorem uniform_error_policy_counterexample :
    get_fetch_data (fun _ => .response 500 "   ") 2 = ⟨.noResponse, 2, 1⟩ ∧
    post_fetch_data (fun _ => .response 500 "   ") 2 = ⟨.noResponse, 2, 1⟩ := by
  decide

/-- C5 (amended): the failure policy is mixed, not uniform — a connection
error or a classified HTTP error status makes the call signal the distinct
taxonomy error immediately, but when every attempt yields an empty body the
call returns a null result (the RetryExhausted raise is swallowed);
post_fetch_data behaves identically to get_fetch_data. -/
theorem mixed_error_policy :
    (∀ (oracle : Nat → AttemptOutcome) (R : Nat), 0 < R →
      (∀ j, j < R → blankAttempt (oracle j) = true) →
      (get_fetch_data oracle R).result = .noResponse) ∧
    (∀ (oracle : Nat → AttemptOutcome) (R : Nat), 0 < R →
      oracle 0 = .requestError →
      (get_fetch_data oracle R).result = .err .connectionError) ∧
    (∀ (oracle : Nat → AttemptOutcome) (R st : Nat) (body : String)
        (e : APIErrorKind), 0 < R → oracle 0 = .response st body →
      blankBody body = false → ¬(200 ≤ st ∧ st < 300) →
      handle_http_status_error st = some e →
      (get_fetch_data oracle R).result = .err e) ∧
    (∀ (oracle : Nat → AttemptOutcome) (R : Nat),
      post_fetch_data oracle R = get_fetch_data oracle R) := by
  refine ⟨?_, ?_, ?_, ?_⟩
  · intro oracle R hR hb
    have h : get_fetch_data oracle R = ⟨.noResponse, R, 0 + (R - 1)⟩ :=
      fetchLoopAux_all_blank oracle R hb R 0 0 (by omega) hR
    rw [h]
  · intro oracle R hR h0
    have h : get_fetch_data oracle R = ⟨.err .connectionError, 0 + 1, 0 + (0 - 0)⟩ :=
      fetchLoopAux_conn oracle R 0 hR h0 R 0 0 (by omega) le_rfl
        (fun j _ hj => absurd hj (Nat.not_lt_zero j))
    rw [h]
  · intro oracle R st body e hR h0 hblank h2xx hcls
    rcases R with _ | n
    · omega
    · show (fetchLoopAux oracle (n + 1) 0 0 (n + 1)).result = _
      rw [fetchLoopAux, h0]
      simp [hblank, h2xx, hcls]
  · intro oracle R
    rfl

/-- Witness for C5 (amended): the three policies at concrete inputs — a
blank-body run returning null, a connection error signalled at once, and a
404 classified and signalled at once. -/
theorem mixed_error_policy_witness :
    (get_fetch_data (fun _ => .response 200 "") 3).result = .noResponse ∧
    (get_fetch_data (fun _ => .requestError) 3).result = .err .connectionError ∧
    (get_fetch_data (fun _ => .response 404 "x") 3).result = .err .notFound ∧
    post_fetch_data (fun _ => .response 404 "x") 3 =
      get_fetch_data (fun _ => .response 404 "x") 3 :=
  ⟨mixed_error_policy.1 _ 3 (by decide) (fun j _ => rfl),
    mixed_error_policy.2.1 _ 3 (by decide) rfl,
    mixed_error_policy.2.2.1 _ 3 404 "x" .notFound (by decide) rfl rfl
      (by decide) rfl,
    mixed_error_policy.2.2.2 _ 3⟩

/-! ## Theorems: token cache (claims C8, C9) -/

/-- Helper: storing a value for a previously absent key makes the dict
lookup return it. -/
theorem lookupToken_append_self (l : List (String × Option String))
    (name : String) (v : Option String) (h : lookupToken l name = none) :
    lookupToken (l ++ [(name, v)]) name = some v := by
  induction l with
  | nil => simp [lookupToken]
  | cons p rest ih =>
    rw [lookupToken] at h
    by_cases hk : p.1 = name
    · rw [if_pos hk] at h
      exact absurd h (by simp)
    · rw [if_neg hk] at h
      show lookupToken ((p.1, p.2) :: (rest ++ [(name, v)])) name = some v
      rw [lookupToken, if_neg hk]
      exact ih h

/-- C8: within one TokenManager instance, the first get_token call for a
recognized name that is not yet cached performs exactly one network
acquisition and stores the value, and a second call for the same name
returns the stored value with no further network call and no state
change. -/
theorem get_token_caches (net : TokenNetEnv) (name : String) (v : Option String)
    (s : TokenState)
    (hname : name = "msToken" ∨ name = "ttwid" ∨ name = "odin_tt")
    (hacq : tokenMethod net name = .ok v)
    (hmiss : lookupToken s.tokens name = none) :
    (get_token net name s).1 = .ok v ∧
    (get_token net name s).2.netCalls = s.netCalls + 1 ∧
    get_token net name (get_token net name s).2 = (.ok v, (get_token net name s).2) := by
  have h1 : get_token net name s = (.ok v, ⟨s.tokens ++ [(name, v)], s.netCalls + 1⟩) := by
    rw [get_token, hmiss]
    rw [if_pos hname, hacq]
  have h2 : get_token net name (⟨s.tokens ++ [(name, v)], s.netCalls + 1⟩ : TokenState) =
      (.ok v, ⟨s.tokens ++ [(name, v)], s.netCalls + 1⟩) := by
    rw [get_token]
    rw [lookupToken_append_self s.tokens name v hmiss]
  rw [h1]
  exact ⟨rfl, rfl, h2⟩

/-- Witness for C8: two sequential get_token calls for "ttwid" on a fresh
instance whose HEAD request delivers the cookie value "w": the first call
acquires and stores it, the second returns it from the cache with the
network-call counter unchanged. -/
theorem get_token_caches_witness :
    (get_token ⟨.ok none, .ok (some "w"), .ok none⟩ "ttwid" ⟨[], 0⟩).1 =
      .ok (some "w") ∧
    (get_token ⟨.ok none, .ok (some "w"), .ok none⟩ "ttwid" ⟨[], 0⟩).2.netCalls = 0 + 1 ∧
    get_token ⟨.ok none, .ok (some "w"), .ok none⟩ "ttwid"
        (get_token ⟨.ok none, .ok (some "w"), .ok none⟩ "ttwid" ⟨[], 0⟩).2 =
      (.ok (some "w"),
        (get_token ⟨.ok none, .ok (some "w"), .ok none⟩ "ttwid" ⟨[], 0⟩).2) :=
  get_token_caches ⟨.ok none, .ok (some "w"), .ok none⟩ "ttwid" (some "w") ⟨[], 0⟩
    (Or.inr (Or.inl rfl)) rfl rfl

/-- C9: the claim states that on acquisition failure msToken falls back to
a synthetically generated placeholder (with a degraded-mode warning) and
the other two names fail hard with TokenUnavailable.  Neither holds: a
network failure in get_ms_token propagates as the raw transport exception
(no placeholder is generated — gen_random_str is imported but never
called), an absent msToken value yields the empty string, and an absent
ttwid or odin_tt cookie is returned as None without any failure. -/
theorem token_fallback_counterexample :
    get_ms_token (.error ()) = .error () ∧
    get_ms_token (.ok none) = .ok "" ∧
    get_ttwid (.ok none) = .ok none ∧
    get_odin_tt (.ok none) = .ok none :=
  ⟨rfl, rfl, rfl, rfl⟩

/-- C9 (amended): no token name has a fallback and none fails with a
distinct token error — for every recognized uncached name, a network
failure during acquisition propagates out of get_token as the raised
transport exception and caches nothing; an msToken response without the
value yields the empty string (the JSON lookup default), and the ttwid and
odin_tt cookie lookups return exactly what the response held, None
included. -/
theorem token_failure_behavior :
    (∀ (net : TokenNetEnv) (s : TokenState) (name : String),
      (name = "msToken" ∨ name = "ttwid" ∨ name = "odin_tt") →
      lookupToken s.tokens name = none → tokenMethod net name = .error () →
      (get_token net name s).1 = .raise ∧
      (get_token net name s).2.tokens = s.tokens) ∧
    (∀ v : Option String, get_ms_token (.ok v) = .ok (v.getD "")) ∧
    get_ms_token (.error ()) = .error () ∧
    (∀ r : Except Unit (Option String), get_ttwid r = r ∧ get_odin_tt r = r) := by
  refine ⟨?_, fun v => rfl, rfl, fun r => ⟨rfl, rfl⟩⟩
  intro net s name hname hmiss hfail
  have h1 : get_token net name s = (.raise, { s with netCalls := s.netCalls + 1 }) := by
    rw [get_token, hmiss]
    rw [if_pos hname, hfail]
  rw [h1]
  exact ⟨rfl, rfl⟩

/-- Witness for C9 (amended): a fresh instance whose network is unreachable
— get_token for "ttwid" raises and caches nothing, and the three method
behaviors at their concrete inputs. -/
theorem token_failure_behavior_witness :
    ((get_token ⟨.error (), .error (), .error ()⟩ "ttwid" ⟨[], 0⟩).1 = .raise ∧
      (get_token ⟨.error (), .error (), .error ()⟩ "ttwid" ⟨[], 0⟩).2.tokens = []) ∧
    get_ms_token (.ok (some "m")) = .ok "m" ∧
    get_ms_token (.error ()) = .error () ∧
    (get_ttwid (.ok none) = .ok none ∧ get_odin_tt (.ok none) = .ok none) :=
  ⟨token_failure_behavior.1 ⟨.error (), .error (), .error ()⟩ ⟨[], 0⟩ "ttwid"
      (Or.inr (Or.inl rfl)) rfl rfl,
    token_failure_behavior.2.1 (some "m"),
    token_failure_behavior.2.2.1,
    token_failure_behavior.2.2.2 (.ok none)⟩

/-! ## Theorems: job state machine and crawl driver (claims C1, C3, C6, C7, C10) -/

/-- C1: the cancel endpoint itself never moves a terminal job, but the
job's own background execution does not re-check the status before its
completion block — in a run where the job is cancelled during the sleep
after the first comment page, the loop stops, yet the coroutine then
unconditionally overwrites the record: the trace contains a cancelled
snapshot and the final status is completed with progress 100, leaving the
terminal cancelled state. -/
theorem crawl_cancel_overwritten_to_completed :
    (crawl_video_comments envC1 (fun n => n == 2) 10 reqC1 initSys).2.task.status =
      .completed ∧
    (crawl_video_comments envC1 (fun n => n == 2) 10 reqC1 initSys).2.task.progress =
      100 ∧
    (∃ t ∈ (crawl_video_comments envC1 (fun n => n == 2) 10 reqC1 initSys).2.trace,
      t.status = .cancelled) := by
  decide

/-- Helper: in a non-decreasing trace, the progress at any position is at
most the progress at the next position. -/
theorem progressMonoBool_get? :
    ∀ (l : List Job), progressMonoBool l = true →
      ∀ (i : Nat) (p q : ℚ), (l.get? i).map Job.progress = some p →
        (l.get? (i + 1)).map Job.progress = some q → p ≤ q := by
  intro l
  induction l with
  | nil => intro _ i p q hp _; simp [List.get?] at hp
  | cons a rest ih =>
    intro h i p q hp hq
    cases rest with
    | nil =>
      rcases i with _ | j
      · simp [List.get?] at hq
      · simp [List.get?] at hq
    | cons b rest2 =>
      rw [progressMonoBool] at h
      rcases (Bool.and_eq_true _ _).mp h with ⟨h1, h2⟩
      rcases i with _ | j
      · simp [List.get?] at hp hq
        subst hp
        subst hq
        exact of_decide_eq_true h1
      · exact ih h2 j p q (by simpa [List.get?] using hp) (by simpa [List.get?] using hq)

/-- C3: the claim states that the progress writes of one job are
monotonically non-decreasing.  With 29 valid comments the reply phase's
first batch write is 50 + (8 / 29) * 35 = 1730/29 < 60, below the 60
checkpoint written just before it: the recorded snapshots of this run are
not a non-decreasing progress chain. -/
theorem progress_monotonicity_counterexample :
    ¬ ProgMono (crawl_video_comments envC3 (fun _ => false) 40 reqC3 initSys).2 := by
  intro hmono
  have h4 : ((crawl_video_comments envC3 (fun _ => false) 40 reqC3
      initSys).2.trace.get? 4).map Job.progress = some 60 := rfl
  have h5 : ((crawl_video_comments envC3 (fun _ => false) 40 reqC3
      initSys).2.trace.get? 5).map Job.progress =
      some (50 + ((8 : ℕ) : ℚ) / ((29 : ℕ) : ℚ) * 35) := rfl
  have hle := progressMonoBool_get? _ hmono 4 _ _ h4 h5
  norm_num at hle

/-- C7: cancelling a running job stops the crawl at the next loop
boundary with everything accumulated so far — a comment-pagination loop
entered on a cancelled job returns its accumulator unchanged and issues no
page fetch, the batch loop likewise returns its mapping unchanged and
launches nothing, and the formatting step keeps every accumulated comment
in the final artifact. -/
theorem cancellation_stops_fetches_preserves_items :
    (∀ (env : CrawlEnv) (sched : Nat → Bool) (fuel : Nat) (hasMore : Bool)
        (cursor page : Nat) (acc : List Comment) (s : Sys),
      s.task.status = .cancelled →
      fetchCommentsLoop env sched fuel hasMore cursor page acc s = (acc, s)) ∧
    (∀ (env : CrawlEnv) (sched : Nat → Bool) (fuel total bfuel : Nat)
        (remaining : List String) (processed : Nat)
        (counts : List (String × Nat)) (s : Sys),
      s.task.status = .cancelled →
      fetchRepliesBatches env sched fuel total bfuel remaining processed counts s =
        (counts, s)) ∧
    (∀ (comments : List Comment) (videoId : String)
        (replyCounts : List (String × Nat)),
      (format_crawled_data comments videoId replyCounts).comments =
        comments.map (fun c =>
          ⟨c.cid.getD "", videoId, c.text, lookupCount replyCounts c.cid⟩)) := by
  refine ⟨?_, ?_, ?_⟩
  · intro env sched fuel hasMore cursor page acc s h
    cases fuel with
    | zero => rfl
    | succ n => simp [fetchCommentsLoop, h]
  · intro env sched fuel total bfuel remaining processed counts s h
    cases bfuel with
    | zero => rfl
    | succ n =>
      cases remaining with
      | nil => rfl
      | cons c rest => simp [fetchRepliesBatches, h]
  · intro comments videoId replyCounts
    rfl

/-- Witness for C7: a cancelled job entering the comment loop mid-crawl
keeps its one accumulated comment and issues nothing; the batch loop on a
cancelled job keeps its recorded mapping; formatting keeps the comment. -/
theorem cancellation_stops_fetches_preserves_items_witness :
    fetchCommentsLoop envC1 (fun _ => false) 5 true 1 1 [⟨some "a", "hi"⟩]
        ⟨⟨.cancelled, 12, 1, 0, none, none⟩, [], 3, []⟩ =
      ([⟨some "a", "hi"⟩], ⟨⟨.cancelled, 12, 1, 0, none, none⟩, [], 3, []⟩) ∧
    fetchRepliesBatches envC1 (fun _ => false) 5 4 5 ["c1", "c2"] 2 [("c0", 2)]
        ⟨⟨.cancelled, 57, 4, 2, none, none⟩, [], 9, []⟩ =
      ([("c0", 2)], ⟨⟨.cancelled, 57, 4, 2, none, none⟩, [], 9, []⟩) ∧
    (format_crawled_data [⟨some "a", "hi"⟩] "v1" []).comments =
      [⟨"a", "v1", "hi", 0⟩] :=
  ⟨cancellation_stops_fetches_preserves_items.1 envC1 (fun _ => false) 5 true 1 1
      [⟨some "a", "hi"⟩] ⟨⟨.cancelled, 12, 1, 0, none, none⟩, [], 3, []⟩ rfl,
    cancellation_stops_fetches_preserves_items.2.1 envC1 (fun _ => false) 5 4 5
      ["c1", "c2"] 2 [("c0", 2)] ⟨⟨.cancelled, 57, 4, 2, none, none⟩, [], 9, []⟩ rfl,
    cancellation_stops_fetches_preserves_items.2.2 [⟨some "a", "hi"⟩] "v1" []⟩

/-- C10: the max_comments option has no effect on the crawl — two requests
that agree on video id, video url and the include-replies flag produce
byte-identical executions (same page-fetch log, same trace, same artifact)
whatever their max_comments values, because the value is never read after
submission. -/
theorem max_comments_no_influence (env : CrawlEnv) (sched : Nat → Bool)
    (fuel : Nat) (r1 r2 : CrawlRequest) (s : Sys)
    (hid : r1.video_id = r2.video_id) (hurl : r1.video_url = r2.video_url)
    (hinc : r1.include_replies = r2.include_replies) :
    crawl_video_comments env sched fuel r1 s = crawl_video_comments env sched fuel r2 s := by
  cases r1 with
  | mk v1 u1 m1 i1 =>
    cases r2 with
    | mk v2 u2 m2 i2 =>
      simp only at hid hurl hinc
      subst hid hurl hinc
      rfl

/-- Witness for C10: two requests identical except max_comments 1000
versus 5 yield identical executions. -/
theorem max_comments_no_influence_witness :
    crawl_video_comments envC1 (fun _ => false) 10 ⟨"v1", none, 1000, true⟩ initSys =
      crawl_video_comments envC1 (fun _ => false) 10 ⟨"v1", none, 5, true⟩ initSys :=
  max_comments_no_influence envC1 (fun _ => false) 10 ⟨"v1", none, 1000, true⟩
    ⟨"v1", none, 5, true⟩ initSys rfl rfl rfl

/-- C6: ten parent comments, batch size eight, two batches, the items c2
and c5 of the first batch failing from their first reply page: the
resulting mapping has all ten keys, records 0 for the two failing items and
the delivered (nonzero) reply count for the other eight, and the second
batch still executes — both of its page requests are issued.  `f` gives the
reply count the remote API delivers for each non-failing item. -/
theorem batched_replies_partial_failure (f : String → Nat) (hf : ∀ c, 0 < f c) :
    (fetch_replies_with_progress (envC6 f) (fun _ => false) 2 commentsC6 sC6).1 =
      [("c0", f "c0"), ("c1", f "c1"), ("c2", 0), ("c3", f "c3"), ("c4", f "c4"),
       ("c5", 0), ("c6", f "c6"), ("c7", f "c7"), ("c8", f "c8"), ("c9", f "c9")] ∧
    ((fetch_replies_with_progress (envC6 f) (fun _ => false) 2 commentsC6 sC6).1.map
        Prod.fst = cidsC6) ∧
    (∀ p ∈ (fetch_replies_with_progress (envC6 f) (fun _ => false) 2 commentsC6 sC6).1,
      p.1 = "c2" ∨ p.1 = "c5" ∨ 0 < p.2) ∧
    FetchEvent.replyPage "c8" 0 ∈
      (fetch_replies_with_progress (envC6 f) (fun _ => false) 2 commentsC6 sC6).2.fetchLog ∧
    FetchEvent.replyPage "c9" 0 ∈
      (fetch_replies_with_progress (envC6 f) (fun _ => false) 2 commentsC6 sC6).2.fetchLog := by
  have hmain : (fetch_replies_with_progress (envC6 f) (fun _ => false) 2 commentsC6 sC6).1 =
      [("c0", (List.replicate (f "c0") (⟨some "r", "x"⟩ : Comment)).length),
       ("c1", (List.replicate (f "c1") (⟨some "r", "x"⟩ : Comment)).length),
       ("c2", 0),
       ("c3", (List.replicate (f "c3") (⟨some "r", "x"⟩ : Comment)).length),
       ("c4", (List.replicate (f "c4") (⟨some "r", "x"⟩ : Comment)).length),
       ("c5", 0),
       ("c6", (List.replicate (f "c6") (⟨some "r", "x"⟩ : Comment)).length),
       ("c7", (List.replicate (f "c7") (⟨some "r", "x"⟩ : Comment)).length),
       ("c8", (List.replicate (f "c8") (⟨some "r", "x"⟩ : Comment)).length),
       ("c9", (List.replicate (f "c9") (⟨some "r", "x"⟩ : Comment)).length)] := rfl
  simp only [List.length_replicate] at hmain
  have hlog : (fetch_replies_with_progress (envC6 f) (fun _ => false) 2 commentsC6
      sC6).2.fetchLog =
      [.replyPage "c0" 0, .replyPage "c1" 0, .replyPage "c2" 0, .replyPage "c3" 0,
       .replyPage "c4" 0, .replyPage "c5" 0, .replyPage "c6" 0, .replyPage "c7" 0,
       .replyPage "c8" 0, .replyPage "c9" 0] := rfl
  refine ⟨hmain, ?_, ?_, ?_, ?_⟩
  · rw [hmain]; rfl
  · rw [hmain]
    intro p hp
    simp only [List.mem_cons, List.not_mem_nil, or_false] at hp
    rcases hp with rfl | rfl | rfl | rfl | rfl | rfl | rfl | rfl | rfl | rfl
    · exact Or.inr (Or.inr (hf _))
    · exact Or.inr (Or.inr (hf _))
    · exact Or.inl rfl
    · exact Or.inr (Or.inr (hf _))
    · exact Or.inr (Or.inr (hf _))
    · exact Or.inr (Or.inl rfl)
    · exact Or.inr (Or.inr (hf _))
    · exact Or.inr (Or.inr (hf _))
    · exact Or.inr (Or.inr (hf _))
    · exact Or.inr (Or.inr (hf _))
  · rw [hlog]; simp
  · rw [hlog]; simp

/-- Witness for C6: with one reply per non-failing item, the mapping is
exactly the ten keys, 0 for c2 and c5 and 1 for the rest, and the second
batch's requests were both issued. -/
theorem batched_replies_partial_failure_witness :
    (fetch_replies_with_progress (envC6 (fun _ => 1)) (fun _ => false) 2 commentsC6
        sC6).1 =
      [("c0", 1), ("c1", 1), ("c2", 0), ("c3", 1), ("c4", 1),
       ("c5", 0), ("c6", 1), ("c7", 1), ("c8", 1), ("c9", 1)] ∧
    ((fetch_replies_with_progress (envC6 (fun _ => 1)) (fun _ => false) 2 commentsC6
        sC6).1.map Prod.fst = cidsC6) ∧
    (∀ p ∈ (fetch_replies_with_progress (envC6 (fun _ => 1)) (fun _ => false) 2
        commentsC6 sC6).1, p.1 = "c2" ∨ p.1 = "c5" ∨ 0 < p.2) ∧
    FetchEvent.replyPage "c8" 0 ∈
      (fetch_replies_with_progress (envC6 (fun _ => 1)) (fun _ => false) 2 commentsC6
        sC6).2.fetchLog ∧
    FetchEvent.replyPage "c9" 0 ∈
      (fetch_replies_with_progress (envC6 (fun _ => 1)) (fun _ => false) 2 commentsC6
        sC6).2.fetchLog :=
  batched_replies_partial_failure (fun _ => 1) (fun _ => Nat.one_pos)

/-! ## Theorems: progress/status machinery for claim C3 -/

/-- Helper: appending one snapshot makes it the last one. -/
theorem lastSnap_concat (x : Job) : ∀ l : List Job, lastSnap (l ++ [x]) = some x := by
  intro l
  induction l with
  | nil => rfl
  | cons a rest ih =>
    cases rest with
    | nil => rfl
    | cons b r2 => exact ih

/-- Helper: a non-decreasing snapshot sequence stays non-decreasing when a
snapshot at least as advanced as the last one is appended. -/
theorem progressMonoBool_concat :
    ∀ (l : List Job) (x : Job), progressMonoBool l = true →
      (∀ a, lastSnap l = some a → a.progress ≤ x.progress) →
      progressMonoBool (l ++ [x]) = true := by
  intro l
  induction l with
  | nil => intro x _ _; rfl
  | cons a rest ih =>
    intro x h hlast
    cases rest with
    | nil =>
      have hax := hlast a rfl
      simp [progressMonoBool, hax]
    | cons b r2 =>
      rw [progressMonoBool] at h
      rcases (Bool.and_eq_true _ _).mp h with ⟨h1, h2⟩
      have hrec := ih x h2 (fun c hc => hlast c hc)
      show progressMonoBool (a :: b :: (r2 ++ [x])) = true
      rw [progressMonoBool]
      exact (Bool.and_eq_true _ _).mpr ⟨h1, hrec⟩

/-- Helper: the trace of a write. -/
theorem writeTask_trace (f : Job → Job) (s : Sys) :
    (writeTask f s).trace = s.trace ++ [f s.task] := rfl

/-- Helper: the cancel endpoint never changes progress. -/
theorem cancel_crawl_progress (t : Job) : (cancel_crawl t).progress = t.progress := by
  unfold cancel_crawl
  split <;> rfl

/-- Helper: the cancel endpoint never produces the completed status. -/
theorem cancel_crawl_status_ne_completed (t : Job) (h : t.status ≠ .completed) :
    (cancel_crawl t).status ≠ .completed := by
  unfold cancel_crawl
  split
  · intro hc
    cases hc
  · exact h

/-- Helper: a write whose new record is below 100 and not completed
preserves the mid-execution invariant. -/
theorem writeTask_sysOk (f : Job → Job) (s : Sys)
    (hf : (f s.task).progress < 100 ∧ (f s.task).status ≠ .completed)
    (h : SysOk s) : SysOk (writeTask f s) := by
  obtain ⟨htr, _, _⟩ := h
  refine ⟨?_, hf.1, hf.2⟩
  intro t ht
  rw [writeTask_trace] at ht
  rcases List.mem_append.mp ht with h1 | h2
  · exact htr t h1
  · have h3 : t = f s.task := by simpa using h2
    subst h3
    exact iff_of_false (ne_of_lt hf.1) hf.2

/-- Helper: a suspension point preserves the mid-execution invariant (a
cancel write keeps progress and cannot complete the job). -/
theorem suspendPoint_sysOk (sched : Nat → Bool) (s : Sys) (h : SysOk s) :
    SysOk (suspendPoint sched s) := by
  by_cases hc : sched s.tick ∧ (s.task.status = .pending ∨ s.task.status = .running)
  · show SysOk { (if sched s.tick ∧ _ then writeTask cancel_crawl s else s)
      with tick := s.tick + 1 }
    rw [if_pos hc]
    exact writeTask_sysOk cancel_crawl s
      ⟨by rw [cancel_crawl_progress]; exact h.2.1,
        cancel_crawl_status_ne_completed s.task h.2.2⟩ h
  · show SysOk { (if sched s.tick ∧ _ then writeTask cancel_crawl s else s)
      with tick := s.tick + 1 }
    rw [if_neg hc]
    exact h

/-- Helper: a suspension point never changes progress. -/
theorem suspendPoint_progress (sched : Nat → Bool) (s : Sys) :
    (suspendPoint sched s).task.progress = s.task.progress := by
  by_cases hc : sched s.tick ∧ (s.task.status = .pending ∨ s.task.status = .running)
  · show ({ (if sched s.tick ∧ _ then writeTask cancel_crawl s else s)
      with tick := s.tick + 1 }).task.progress = _
    rw [if_pos hc]
    exact cancel_crawl_progress s.task
  · show ({ (if sched s.tick ∧ _ then writeTask cancel_crawl s else s)
      with tick := s.tick + 1 }).task.progress = _
    rw [if_neg hc]

/-- Helper: a write that does not decrease progress preserves
monotonicity. -/
theorem writeTask_monoLast (f : Job → Job) (s : Sys) (h : MonoLast s)
    (hle : s.task.progress ≤ (f s.task).progress) : MonoLast (writeTask f s) := by
  obtain ⟨hm, hl⟩ := h
  constructor
  · exact progressMonoBool_concat s.trace (f s.task) hm (fun a ha => by
      rw [hl] at ha
      have h2 : a = s.task := (Option.some.inj ha).symm
      rw [h2]
      exact hle)
  · exact lastSnap_concat _ _

/-- Helper: a suspension point preserves monotonicity. -/
theorem suspendPoint_monoLast (sched : Nat → Bool) (s : Sys) (h : MonoLast s) :
    MonoLast (suspendPoint sched s) := by
  by_cases hc : sched s.tick ∧ (s.task.status = .pending ∨ s.task.status = .running)
  · show MonoLast { (if sched s.tick ∧ _ then writeTask cancel_crawl s else s)
      with tick := s.tick + 1 }
    rw [if_pos hc]
    exact writeTask_monoLast cancel_crawl s h (le_of_eq (cancel_crawl_progress s.task).symm)
  · show MonoLast { (if sched s.tick ∧ _ then writeTask cancel_crawl s else s)
      with tick := s.tick + 1 }
    rw [if_neg hc]
    exact h

/-- Helper: the comment pagination loop preserves the mid-execution
invariant — every progress it writes stays at or below 50. -/
theorem fetchCommentsLoop_sysOk (env : CrawlEnv) (sched : Nat → Bool) :
    ∀ (fuel : Nat) (hasMore : Bool) (cursor page : Nat) (acc : List Comment)
      (s : Sys), SysOk s →
      SysOk (fetchCommentsLoop env sched fuel hasMore cursor page acc s).2 := by
  intro fuel
  induction fuel with
  | zero => intro _ _ _ _ s h; exact h
  | succ n ih =>
    intro hasMore cursor page acc s h
    rw [fetchCommentsLoop]
    by_cases hc : (hasMore = true ∧ s.task.status = .running)
    · rw [if_pos hc]
      cases henv : env.commentPage cursor with
      | none => exact suspendPoint_sysOk sched _ h
      | some p =>
        have h1 : SysOk (suspendPoint sched (logFetch (.commentPage cursor) s)) :=
          suspendPoint_sysOk sched _ h
        have h2 : SysOk (writeTask (fun t =>
            { t with progress := min (10 + (page + 1 : ℚ) * 2) 50,
                     statsComments := (acc ++ p.comments).length })
            (suspendPoint sched (logFetch (.commentPage cursor) s))) :=
          writeTask_sysOk _ _
            ⟨lt_of_le_of_lt (min_le_right _ _) (by norm_num), h1.2.2⟩ h1
        have h3 := suspendPoint_sysOk sched _ h2
        exact ih p.hasMore p.cursor (page + 1) (acc ++ p.comments) _ h3
    · rw [if_neg hc]
      exact h

/-- Helper: the reply pagination loop for one comment writes nothing and
preserves the mid-execution invariant and the progress value. -/
theorem fetchRepliesInner_sysOk (env : CrawlEnv) (sched : Nat → Bool)
    (cid : String) :
    ∀ (fuel : Nat) (hasMore : Bool) (cursor : Nat) (acc : List Comment)
      (s : Sys), SysOk s →
      SysOk (fetchRepliesInner env sched cid fuel hasMore cursor acc s).2 := by
  intro fuel
  induction fuel with
  | zero => intro _ _ _ s h; exact h
  | succ n ih =>
    intro hasMore cursor acc s h
    rw [fetchRepliesInner]
    by_cases hc : (hasMore = true)
    · rw [if_pos hc]
      cases henv : env.replyPage cid cursor with
      | none => exact suspendPoint_sysOk sched _ h
      | some p =>
        exact ih p.hasMore p.cursor (acc ++ p.comments) _
          (suspendPoint_sysOk sched _ (suspendPoint_sysOk sched _ h))
    · rw [if_neg hc]
      exact h

/-- Helper: a gathered batch preserves the mid-execution invariant. -/
theorem runBatch_sysOk (env : CrawlEnv) (sched : Nat → Bool) (fuel : Nat) :
    ∀ (batch : List String) (s : Sys), SysOk s →
      SysOk (runBatch env sched fuel batch s).2 := by
  intro batch
  induction batch with
  | nil => intro s h; exact h
  | cons cid rest ih =>
    intro s h
    rw [runBatch]
    exact ih _ (fetchRepliesInner_sysOk env sched cid fuel true 0 [] s h)

/-- Helper: the batch progress formula stays strictly below 100 whenever
the processed count is at most the total. -/
theorem replyProgressBound (a b : Nat) (h1 : a ≤ b) (h2 : 0 < b) :
    (50 : ℚ) + (a : ℚ) / (b : ℚ) * 35 < 100 := by
  have hb : (0 : ℚ) < (b : ℚ) := by exact_mod_cast h2
  have hab : (a : ℚ) ≤ (b : ℚ) := by exact_mod_cast h1
  have h3 : (a : ℚ) / (b : ℚ) ≤ 1 := (div_le_one hb).mpr hab
  have h4 : (a : ℚ) / (b : ℚ) * 35 ≤ 1 * 35 :=
    mul_le_mul_of_nonneg_right h3 (by norm_num)
  linarith

/-- Helper: the reply batch loop preserves the mid-execution invariant —
given that the processed count plus the remaining items equals the total,
every progress it writes stays at or below 85. -/
theorem fetchRepliesBatches_sysOk (env : CrawlEnv) (sched : Nat → Bool)
    (fuel total : Nat) :
    ∀ (bfuel : Nat) (remaining : List String) (processed : Nat)
      (counts : List (String × Nat)) (s : Sys),
      processed + remaining.length = total → SysOk s →
      SysOk (fetchRepliesBatches env sched fuel total bfuel remaining processed
        counts s).2 := by
  intro bfuel
  induction bfuel with
  | zero => intro _ _ _ s _ h; exact h
  | succ n ih =>
    intro remaining processed counts s hinv h
    cases remaining with
    | nil => exact h
    | cons c rest0 =>
      rw [fetchRepliesBatches]
      by_cases hc : (s.task.status = .running)
      · rw [if_pos hc]
        have hbatch : ((c :: rest0).take batchSize).length ≤ (c :: rest0).length := by
          simp [List.length_take]
        have hproc : processed + ((c :: rest0).take batchSize).length ≤ total := by
          omega
        have htot : 0 < total := by
          simp at hinv
          omega
        have hrb := runBatch_sysOk env sched fuel ((c :: rest0).take batchSize) s h
        have htake : ((c :: rest0).take batchSize).length =
            min batchSize (c :: rest0).length := List.length_take _ _
        apply ih
        · simp only [List.length_drop, htake]
          omega
        · by_cases hrest : ((c :: rest0).drop batchSize).isEmpty
          · rw [if_pos hrest]
            refine writeTask_sysOk _ _ ⟨?_, ?_⟩ hrb
            · exact replyProgressBound _ _ hproc htot
            · exact hrb.2.2
          · rw [if_neg hrest]
            refine suspendPoint_sysOk sched _ ?_
            refine writeTask_sysOk _ _ ⟨?_, ?_⟩ hrb
            · exact replyProgressBound _ _ hproc htot
            · exact hrb.2.2
      · rw [if_neg hc]
        exact h

/-- Helper: the whole reply phase preserves the mid-execution invariant. -/
theorem fetch_replies_with_progress_sysOk (env : CrawlEnv) (sched : Nat → Bool)
    (fuel : Nat) (comments : List Comment) (s : Sys) (h : SysOk s) :
    SysOk (fetch_replies_with_progress env sched fuel comments s).2 := by
  rw [fetch_replies_with_progress]
  by_cases he : (comments.filterMap truthyCid).isEmpty
  · rw [if_pos he]
    exact h
  · rw [if_neg he]
    exact fetchRepliesBatches_sysOk env sched fuel _ fuel _ 0 [] s (by omega) h

/-- C3 (amended), part proved here as a helper: every snapshot the crawl
records is progress/status consistent. -/
theorem crawl_trace_jobOk (env : CrawlEnv) (sched : Nat → Bool) (fuel : Nat)
    (req : CrawlRequest) (s : Sys) (h : SysOk s) :
    ∀ t ∈ (crawl_video_comments env sched fuel req s).2.trace, JobOk t := by
  rw [crawl_video_comments]
  have h0 := suspendPoint_sysOk sched s h
  have h1 : SysOk (writeTask (fun t => { t with status := .running, progress := 10 })
      (suspendPoint sched s)) :=
    writeTask_sysOk _ _ ⟨by norm_num, fun hx => Status.noConfusion hx⟩ h0
  have h2 : SysOk (fetch_comments_with_progress env sched fuel
      (writeTask (fun t => { t with status := .running, progress := 10 })
        (suspendPoint sched s))).2 :=
    fetchCommentsLoop_sysOk env sched fuel true 0 0 [] _ h1
  rcases hfc : fetch_comments_with_progress env sched fuel
      (writeTask (fun t => { t with status := .running, progress := 10 })
        (suspendPoint sched s)) with ⟨comments, s2⟩
  rw [hfc] at h2
  dsimp only
  have h3 : SysOk (writeTask (fun t =>
      { t with progress := 50, statsComments := comments.length }) s2) :=
    writeTask_sysOk _ _ ⟨by norm_num, h2.2.2⟩ h2
  by_cases hb : (req.include_replies = true)
  · rw [if_pos hb]
    have h4 : SysOk (writeTask (fun t => { t with progress := 60 })
        (writeTask (fun t =>
          { t with progress := 50, statsComments := comments.length }) s2)) :=
      writeTask_sysOk _ _ ⟨by norm_num, h3.2.2⟩ h3
    have h5 : SysOk (fetch_replies_with_progress env sched fuel comments
        (writeTask (fun t => { t with progress := 60 })
          (writeTask (fun t =>
            { t with progress := 50, statsComments := comments.length }) s2))).2 :=
      fetch_replies_with_progress_sysOk env sched fuel comments _ h4
    rcases hfr : fetch_replies_with_progress env sched fuel comments
        (writeTask (fun t => { t with progress := 60 })
          (writeTask (fun t =>
            { t with progress := 50, statsComments := comments.length }) s2)) with
      ⟨rc, sb⟩
    rw [hfr] at h5
    dsimp only
    have h6 : SysOk (writeTask (fun t =>
        { t with statsReplies := sumCounts rc, progress := 90 }) sb) :=
      writeTask_sysOk _ _ ⟨by norm_num, h5.2.2⟩ h5
    intro t ht
    rw [writeTask_trace] at ht
    rcases List.mem_append.mp ht with hin | hlast
    · exact h6.1 t hin
    · rcases List.mem_singleton.mp hlast with rfl
      exact iff_of_true rfl rfl
  · rw [if_neg hb]
    dsimp only
    have h6 : SysOk (writeTask (fun t => { t with progress := 90 })
        (writeTask (fun t =>
          { t with progress := 50, statsComments := comments.length }) s2)) :=
      writeTask_sysOk _ _ ⟨by norm_num, h3.2.2⟩ h3
    intro t ht
    rw [writeTask_trace] at ht
    rcases List.mem_append.mp ht with hin | hlast
    · exact h6.1 t hin
    · rcases List.mem_singleton.mp hlast with rfl
      exact iff_of_true rfl rfl

/-- Helper: the per-comment reply loop preserves monotonicity and never
changes the progress value. -/
theorem fetchRepliesInner_monoLast (env : CrawlEnv) (sched : Nat → Bool)
    (cid : String) :
    ∀ (fuel : Nat) (hasMore : Bool) (cursor : Nat) (acc : List Comment)
      (s : Sys), MonoLast s →
      MonoLast (fetchRepliesInner env sched cid fuel hasMore cursor acc s).2 ∧
      (fetchRepliesInner env sched cid fuel hasMore cursor acc s).2.task.progress =
        s.task.progress := by
  intro fuel
  induction fuel with
  | zero => intro _ _ _ s h; exact ⟨h, rfl⟩
  | succ n ih =>
    intro hasMore cursor acc s h
    rw [fetchRepliesInner]
    by_cases hcnd : (hasMore = true)
    · rw [if_pos hcnd]
      cases henv : env.replyPage cid cursor with
      | none =>
        refine ⟨suspendPoint_monoLast sched _ h, ?_⟩
        exact suspendPoint_progress sched _
      | some p =>
        have hs1 := suspendPoint_monoLast sched (logFetch (.replyPage cid cursor) s) h
        have hs2 := suspendPoint_monoLast sched _ hs1
        have hrec := ih p.hasMore p.cursor (acc ++ p.comments) _ hs2
        refine ⟨hrec.1, ?_⟩
        rw [hrec.2, suspendPoint_progress, suspendPoint_progress]
        rfl
    · rw [if_neg hcnd]
      exact ⟨h, rfl⟩

/-- Helper: a gathered batch preserves monotonicity and never changes the
progress value. -/
theorem runBatch_monoLast (env : CrawlEnv) (sched : Nat → Bool) (fuel : Nat) :
    ∀ (batch : List String) (s : Sys), MonoLast s →
      MonoLast (runBatch env sched fuel batch s).2 ∧
      (runBatch env sched fuel batch s).2.task.progress = s.task.progress := by
  intro batch
  induction batch with
  | nil => intro s h; exact ⟨h, rfl⟩
  | cons cid rest ih =>
    intro s h
    rw [runBatch]
    have h1 : MonoLast (fetch_comment_replies env sched fuel cid s).2 ∧
        (fetch_comment_replies env sched fuel cid s).2.task.progress =
          s.task.progress :=
      fetchRepliesInner_monoLast env sched cid fuel true 0 [] s h
    have h2 := ih _ h1.1
    refine ⟨h2.1, ?_⟩
    show (runBatch env sched fuel rest
      (fetch_comment_replies env sched fuel cid s).2).2.task.progress =
        s.task.progress
    rw [h2.2, h1.2]

/-- C3 (amended), comment-phase helper: within the comment-fetch phase the
recorded progress is non-decreasing — each iteration writes
min(10 + 2·page, 50), which only grows with the page counter. -/
theorem fetchCommentsLoop_monoLast (env : CrawlEnv) (sched : Nat → Bool) :
    ∀ (fuel : Nat) (hasMore : Bool) (cursor page : Nat) (acc : List Comment)
      (s : Sys), MonoLast s →
      s.task.progress ≤ min (10 + ((page : ℚ) + 1) * 2) 50 →
      MonoLast (fetchCommentsLoop env sched fuel hasMore cursor page acc s).2 := by
  intro fuel
  induction fuel with
  | zero => intro _ _ _ _ s h _; exact h
  | succ n ih =>
    intro hasMore cursor page acc s h hp
    rw [fetchCommentsLoop]
    by_cases hc : (hasMore = true ∧ s.task.status = .running)
    · rw [if_pos hc]
      cases henv : env.commentPage cursor with
      | none => exact suspendPoint_monoLast sched _ h
      | some p =>
        have hs1 := suspendPoint_monoLast sched (logFetch (.commentPage cursor) s) h
        have hw : MonoLast (writeTask (fun t =>
            { t with progress := min (10 + (page + 1 : ℚ) * 2) 50,
                     statsComments := (acc ++ p.comments).length })
            (suspendPoint sched (logFetch (.commentPage cursor) s))) := by
          refine writeTask_monoLast _ _ hs1 ?_
          rw [suspendPoint_progress]
          exact hp
        have hs2 := suspendPoint_monoLast sched _ hw
        apply ih p.hasMore p.cursor (page + 1) (acc ++ p.comments) _ hs2
        rw [suspendPoint_progress]
        show min (10 + ((page : ℚ) + 1) * 2) 50 ≤
          min (10 + (((page + 1 : ℕ) : ℚ) + 1) * 2) 50
        apply min_le_min _ le_rfl
        push_cast
        linarith
    · rw [if_neg hc]
      exact h

/-- C3 (amended), reply-phase helper: within the reply phase the recorded
progress is non-decreasing, provided the phase is entered at or below its
first write 50 + processed/total·35 — the formula only grows with the
processed count.  (The crawl enters the phase at the 60 checkpoint, which
can exceed the first write: that single join is the non-monotonic step the
counterexample exhibits.) -/
theorem fetchRepliesBatches_monoLast (env : CrawlEnv) (sched : Nat → Bool)
    (fuel total : Nat) (htot : 0 < total) :
    ∀ (bfuel : Nat) (remaining : List String) (processed : Nat)
      (counts : List (String × Nat)) (s : Sys), MonoLast s →
      s.task.progress ≤ 50 + ((processed : ℚ) / (total : ℚ)) * 35 →
      MonoLast (fetchRepliesBatches env sched fuel total bfuel remaining processed
        counts s).2 := by
  intro bfuel
  induction bfuel with
  | zero => intro _ _ _ s h _; exact h
  | succ n ih =>
    intro remaining processed counts s h hp
    cases remaining with
    | nil => exact h
    | cons c rest0 =>
      rw [fetchRepliesBatches]
      by_cases hc : (s.task.status = .running)
      · rw [if_pos hc]
        dsimp only
        have hmono : ((processed : ℚ) / (total : ℚ)) * 35 ≤
            (((processed + ((c :: rest0).take batchSize).length : ℕ) : ℚ) /
              (total : ℚ)) * 35 := by
          apply mul_le_mul_of_nonneg_right _ (by norm_num)
          rw [div_le_div_iff_of_pos_right
            (by exact_mod_cast htot : (0 : ℚ) < (total : ℚ))]
          exact_mod_cast Nat.le_add_right processed _
        have hrb := runBatch_monoLast env sched fuel ((c :: rest0).take batchSize) s h
        generalize hgb : runBatch env sched fuel ((c :: rest0).take batchSize) s = gb
        rcases gb with ⟨results, s1⟩
        rw [hgb] at hrb
        apply ih
        · by_cases hrest : ((c :: rest0).drop batchSize).isEmpty
          · rw [if_pos hrest]
            refine writeTask_monoLast _ _ hrb.1 ?_
            show s1.task.progress ≤ 50 +
              (((processed + ((c :: rest0).take batchSize).length : ℕ) : ℚ) /
                (total : ℚ)) * 35
            rw [(hrb.2 : s1.task.progress = s.task.progress)]
            linarith
          · rw [if_neg hrest]
            refine suspendPoint_monoLast sched _ ?_
            refine writeTask_monoLast _ _ hrb.1 ?_
            show s1.task.progress ≤ 50 +
              (((processed + ((c :: rest0).take batchSize).length : ℕ) : ℚ) /
                (total : ℚ)) * 35
            rw [(hrb.2 : s1.task.progress = s.task.progress)]
            linarith
        · by_cases hrest : ((c :: rest0).drop batchSize).isEmpty
          · rw [if_pos hrest]
            show (50 : ℚ) +
              (((processed + ((c :: rest0).take batchSize).length : ℕ) : ℚ) /
                (total : ℚ)) * 35 ≤ _
            exact le_rfl
          · rw [if_neg hrest]
            rw [suspendPoint_progress]
            show (50 : ℚ) +
              (((processed + ((c :: rest0).take batchSize).length : ℕ) : ℚ) /
                (total : ℚ)) * 35 ≤ _
            exact le_rfl
      · rw [if_neg hc]
        exact h

/-- C3 (amended): the claim's biconditional holds — a recorded snapshot has
progress 100 exactly when its status is completed — and progress is
non-decreasing within the comment-fetch phase and within the reply phase
(from the phase's own first write on); global monotonicity fails only at
the entry of the reply phase, where the 60 checkpoint can exceed the first
batch write 50 + processed/total·35, as the counterexample shows. -/
theorem progress_checkpoints_and_phase_monotonicity :
    (∀ (env : CrawlEnv) (sched : Nat → Bool) (fuel : Nat) (req : CrawlRequest)
        (s : Sys), SysOk s →
      ∀ t ∈ (crawl_video_comments env sched fuel req s).2.trace, JobOk t) ∧
    (∀ (env : CrawlEnv) (sched : Nat → Bool) (fuel : Nat) (hasMore : Bool)
        (cursor page : Nat) (acc : List Comment) (s : Sys), MonoLast s →
      s.task.progress ≤ min (10 + ((page : ℚ) + 1) * 2) 50 →
      MonoLast (fetchCommentsLoop env sched fuel hasMore cursor page acc s).2) ∧
    (∀ (env : CrawlEnv) (sched : Nat → Bool) (fuel total bfuel : Nat)
        (remaining : List String) (processed : Nat)
        (counts : List (String × Nat)) (s : Sys), 0 < total → MonoLast s →
      s.task.progress ≤ 50 + ((processed : ℚ) / (total : ℚ)) * 35 →
      MonoLast (fetchRepliesBatches env sched fuel total bfuel remaining processed
        counts s).2) :=
  ⟨fun env sched fuel req s h => crawl_trace_jobOk env sched fuel req s h,
    fun env sched fuel hasMore cursor page acc s h hp =>
      fetchCommentsLoop_monoLast env sched fuel hasMore cursor page acc s h hp,
    fun env sched fuel total bfuel remaining processed counts s htot h hp =>
      fetchRepliesBatches_monoLast env sched fuel total htot bfuel remaining
        processed counts s h hp⟩

/-- Witness for C3 (amended): the consistency invariant on a concrete
cancelled-then-completed run, and both phase monotonicity statements on
concrete mid-crawl states. -/
theorem progress_checkpoints_and_phase_monotonicity_witness :
    (∀ t ∈ (crawl_video_comments envC1 (fun _ => false) 10 reqC1 initSys).2.trace,
      JobOk t) ∧
    MonoLast (fetchCommentsLoop envC1 (fun _ => false) 3 true 0 0 []
      ⟨⟨.running, 10, 0, 0, none, none⟩,
        [⟨.running, 10, 0, 0, none, none⟩], 1, []⟩).2 ∧
    MonoLast (fetchRepliesBatches envC1 (fun _ => false) 2 10 1 ["a"] 0 []
      ⟨⟨.running, 50, 0, 0, none, none⟩,
        [⟨.running, 50, 0, 0, none, none⟩], 1, []⟩).2 :=
  ⟨progress_checkpoints_and_phase_monotonicity.1 envC1 (fun _ => false) 10 reqC1
      initSys
      ⟨fun t ht => by
          rcases List.mem_singleton.mp ht with rfl
          exact iff_of_false (by norm_num [initialTask])
            (fun hx => Status.noConfusion hx),
        by norm_num [initSys, initialTask],
        fun hx => Status.noConfusion hx⟩,
    progress_checkpoints_and_phase_monotonicity.2.1 envC1 (fun _ => false) 3 true
      0 0 [] _ ⟨rfl, rfl⟩ (le_min (by norm_num) (by norm_num)),
    progress_checkpoints_and_phase_monotonicity.2.2 envC1 (fun _ => false) 2 10 1
      ["a"] 0 [] _ (by norm_num) ⟨rfl, rfl⟩ (by norm_num)⟩
